import Mathlib

/-!
Shallow embedding of the turret firmware's interrupt-driven control subsystem
(monotonic clock, servo pulse multiplexer, ultrasonic ranging driver, command
dispatcher), translated from the Rust sources in rangefinder/src and src.
Machine integers are modelled as Nat or Int with explicit reduction modulo
2^8, 2^16 or 2^32 where the Rust code performs wrapping arithmetic or casts.
-/

/-- Modulus of an 8-bit machine integer. -/
def U8 : ℕ := 256

/-- Modulus of a 16-bit machine integer. -/
def U16 : ℕ := 65536

/-- Modulus of a 32-bit machine integer. -/
def U32 : ℕ := 4294967296

/-! ## Monotonic clock (rangefinder/src/clock.rs) -/

/-- State of the static CLOCK: the folded main counter (u32) and the live
sub-counter part (u8). -/
structure ClockState where
  counter : ℕ
  part : ℕ
  deriving DecidableEq

/-- Clock::new initialises both counters to zero. -/
def clockInit : ClockState := { counter := 0, part := 0 }

/-- Clock::now returns counter + part with u32 wrapping addition. -/
def clockNow (s : ClockState) : ℕ :=
  (s.counter + s.part) % U32

/-- Clock::tick: when part exceeds 250 it is folded into the main counter
with a u32 wrapping add and reset to zero, otherwise only part is bumped
(u8 addition). -/
def clockTick (s : ClockState) : ClockState :=
  if s.part > 250 then
    { counter := (s.counter + s.part) % U32, part := 0 }
  else
    { counter := s.counter, part := (s.part + 1) % U8 }

/-- The compile-time gate on Clock KHZ PRESCALE: the compare value must fit
in the 8-bit register. Mirrors the const generics bound
Assert ((16_000_000 / (PRESCALE * KHZ * 1_000)) - 1 < 256). -/
def clockAssertCond (khz prescale : ℕ) : Prop :=
  (16000000 / (prescale * khz * 1000)) - 1 < 256

/-- Clock::FREQ = KHZ * 1_000. -/
def clockFREQ (khz : ℕ) : ℕ := khz * 1000

/-- Clock::TOP = ((16_000_000 / (PRESCALE * FREQ)) - 1) as u8; the cast to
u8 is modelled by reduction modulo 256. -/
def clockTOP (khz prescale : ℕ) : ℕ :=
  ((16000000 / (prescale * clockFREQ khz)) - 1) % U8

/-! ## Servo pulse multiplexer (rangefinder/src/servo.rs) -/

/-- MAX_SERVOS. -/
def MAX_SERVOS : ℕ := 12

/-- REFRESH_INTERVAL in microseconds. -/
def REFRESH_INTERVAL : ℕ := 20000

/-- MIN_PULSE_WIDTH (i16). -/
def MIN_PULSE_WIDTH : ℤ := 544

/-- MAX_PULSE_WIDTH (i16). -/
def MAX_PULSE_WIDTH : ℤ := 2400

/-- DEFAULT_PULSE_WIDTH (u16). -/
def DEFAULT_PULSE_WIDTH : ℕ := 1500

/-- TRIM_DURATION (i16). -/
def TRIM_DURATION : ℤ := 0

/-- CLOCK_CYCLES_PER_MICROSECOND = 16_000_000 / 1_000_000. -/
def CLOCK_CYCLES_PER_MICROSECOND : ℕ := 16

/-- us_to_ticks: (us * CLOCK_CYCLES_PER_MICROSECOND) / 8 in u32 arithmetic. -/
def us_to_ticks (us : ℕ) : ℕ :=
  ((us * CLOCK_CYCLES_PER_MICROSECOND) % U32) / 8

/-- ticks_to_us: (ticks * 8) / CLOCK_CYCLES_PER_MICROSECOND in u32
arithmetic. -/
def ticks_to_us (ticks : ℕ) : ℕ :=
  ((ticks * 8) % U32) / CLOCK_CYCLES_PER_MICROSECOND

/-- The errors a registration can report. -/
inductive ServoError where
  | NotInitialized
  | TooManyServos
  deriving DecidableEq

/-- ServoInternal: one slot of the static SERVOS table. The pin is kept as a
plain number identifying the output line. -/
structure ServoSlot where
  pin : ℕ
  ticks : ℕ
  attached : Bool
  deriving DecidableEq

/-- The global state the multiplexer touches: the donated TC1 flag, the
SERVOS table, the OCIE1A interrupt-enable bit, the CHANNEL static (i8) and
the TCNT1 / OCR1A hardware registers (u16). -/
structure ServoState where
  tc1Donated : Bool
  servos : List ServoSlot
  timerEnabled : Bool
  channel : ℤ
  tcnt : ℕ
  ocr : ℕ
  deriving DecidableEq

/-- State after donate_tc1, before any registration. -/
def servoInit : ServoState :=
  { tc1Donated := true, servos := [], timerEnabled := false,
    channel := 0, tcnt := 0, ocr := 0 }

/-- A Servo handle: its slot index and the attach-time min and max encodings
(i16). -/
structure ServoHandle where
  index : ℕ
  min : ℤ
  max : ℤ

/-- Update the slot at index i, leaving the list unchanged when i is out of
range (the table is never indexed out of range by the code). -/
def updateSlot : List ServoSlot → ℕ → (ServoSlot → ServoSlot) → List ServoSlot
  | [], _, _ => []
  | x :: xs, 0, f => f x :: xs
  | x :: xs, Nat.succ n, f => x :: updateSlot xs n f

/-- Servo::new: fails with NotInitialized when TC1 was not donated, pushes a
fresh detached slot with the default pulse width otherwise, and fails with
TooManyServos when the heapless Vec of capacity MAX_SERVOS is full. Returns
the new slot index. -/
def servoNew (s : ServoState) (pin : ℕ) : Except ServoError (ServoState × ℕ) :=
  if s.tc1Donated = false then
    Except.error ServoError.NotInitialized
  else if s.servos.length < MAX_SERVOS then
    let l := s.servos ++ [{ pin := pin, ticks := DEFAULT_PULSE_WIDTH, attached := false }]
    Except.ok ({ s with servos := l }, s.servos.length)
  else
    Except.error ServoError.TooManyServos

/-- Servo::is_timer_active: some slot is attached. -/
def isTimerActive (s : ServoState) : Bool :=
  s.servos.any (fun sl => sl.attached)

/-- Servo::init_timer: arm the compare interrupt and clear the counter. -/
def initTimer (s : ServoState) : ServoState :=
  { s with timerEnabled := true, tcnt := 0 }

/-- Servo::disable_timer: clear the OCIE1A interrupt-enable bit. -/
def disableTimer (s : ServoState) : ServoState :=
  { s with timerEnabled := false }

/-- Servo::attach_with_limits applied to slot i: start the timer when it was
not active, then mark the slot attached. -/
def servoAttach (s : ServoState) (i : ℕ) : ServoState :=
  let s1 := if isTimerActive s = false then initTimer s else s
  { s1 with servos := updateSlot s1.servos i (fun sl => { sl with attached := true }) }

/-- Servo::detach applied to slot i: clear the attached flag, then run
disable_timer under the condition the code actually tests
(is_timer_active). -/
def servoDetach (s : ServoState) (i : ℕ) : ServoState :=
  let s1 := { s with servos := updateSlot s.servos i (fun sl => { sl with attached := false }) }
  if isTimerActive s1 then disableTimer s1 else s1

/-- Servo::servo_min: MIN_PULSE_WIDTH - min * 4. -/
def servo_min (h : ServoHandle) : ℤ :=
  MIN_PULSE_WIDTH - h.min * 4

/-- Servo::servo_max: MAX_PULSE_WIDTH - max * 4. -/
def servo_max (h : ServoHandle) : ℤ :=
  MAX_PULSE_WIDTH - h.max * 4

/-- The tick count stored by Servo::write_us: the argument clamped to the
handle's range, trimmed, cast i16 to u32 (two's complement), converted by
us_to_ticks and cast to u16. -/
def writtenTicks (h : ServoHandle) (value : ℤ) : ℕ :=
  let v1 := max (servo_min h) (min value (servo_max h))
  let v2 := v1 - TRIM_DURATION
  (us_to_ticks ((v2 % (U32 : ℤ)).toNat)) % U16

/-- Servo::write_us on handle h: store the computed ticks in the slot at the
handle's index. -/
def servoWriteUs (s : ServoState) (h : ServoHandle) (value : ℤ) : ServoState :=
  let l := updateSlot s.servos h.index (fun sl => { sl with ticks := writtenTicks h value })
  { s with servos := l }

/-- Register count servos in sequence (each a Servo::new call on pin 0),
stopping at the first failure. -/
def registerMany : ServoState → ℕ → Except ServoError ServoState
  | s, 0 => Except.ok s
  | s, Nat.succ n =>
    match servoNew s 0 with
    | Except.error e => Except.error e
    | Except.ok (s1, _) => registerMany s1 n

/-- Whether an Except is a success. -/
def exceptOk {ε α : Type} : Except ε α → Bool
  | Except.ok _ => true
  | Except.error _ => false

/-- The state after MAX_SERVOS successful registrations from servoInit. -/
def servoFullState : ServoState :=
  match registerMany servoInit MAX_SERVOS with
  | Except.ok s => s
  | Except.error _ => servoInit

/-- The TIMER1_COMPA interrupt handler. It returns the new global state and
the list of pin writes it performed, each as (pin, level). Follows the
source step by step: reset TCNT on a negative channel or pulse the current
attached slot low; advance the channel; when a slot exists at the new
channel schedule TCNT + its ticks and pulse it high when attached; otherwise
schedule the refresh boundary or TCNT + 4 according to the comparison the
code performs, and set the channel to -1. -/
def TIMER1_COMPA (s : ServoState) : ServoState × List (ℕ × Bool) :=
  let step1 :=
    if s.channel < 0 then
      ({ s with tcnt := 0 }, ([] : List (ℕ × Bool)))
    else
      match s.servos.get? s.channel.toNat with
      | some sl => if sl.attached then (s, [(sl.pin, false)]) else (s, [])
      | none => (s, [])
  let sA := step1.1
  let acts := step1.2
  let sB := { sA with channel := sA.channel + 1 }
  match sB.servos.get? sB.channel.toNat with
  | some sl =>
    let sC := { sB with ocr := (sB.tcnt + sl.ticks) % U16 }
    (sC, if sl.attached then acts ++ [(sl.pin, true)] else acts)
  | none =>
    let sC :=
      if sB.tcnt + 4 > us_to_ticks REFRESH_INTERVAL then
        { sB with ocr := (us_to_ticks REFRESH_INTERVAL) % U16 }
      else
        { sB with ocr := (sB.tcnt + 4) % U16 }
    ({ sC with channel := -1 }, acts)

/-! ## Ultrasonic ranging driver (src/hc_sr04.rs) -/

/-- The ranging state machine. -/
inductive HcSr04State where
  | Idle
  | Triggered
  | Measuring
  deriving DecidableEq

/-- The measurement errors. -/
inductive HcSr04Error where
  | InvalidResult
  | NoEcho
  | NoTrigger
  deriving DecidableEq

/-- The shared cells the wait loop and the INT1 handler touch: TRIGGER_TIME,
ECHO_TIME (u32) and STATE. -/
structure RangeLoopState where
  trigger : ℕ
  echo : ℕ
  st : HcSr04State
  deriving DecidableEq

/-- What one iteration of the busy-wait loop observes from the environment:
an optional INT1 edge interrupt delivered just before the iteration (with
its Clock::now timestamp), whether the timeout check at the top of the loop
fires, the level the echo pin reads, and Clock::now at the pin read. -/
structure LoopObs where
  irq : Option ℕ
  timedOut : Bool
  pinHigh : Bool
  now : ℕ
  deriving DecidableEq

/-- Whether the loop iteration continues or breaks. -/
inductive LoopOutcome where
  | cont
  | brk
  deriving DecidableEq

/-- The INT1 edge interrupt handler: timestamp the trigger cell when the
state is Triggered, the echo cell when Measuring, ignore otherwise. -/
def int1 (s : RangeLoopState) (t : ℕ) : RangeLoopState :=
  match s.st with
  | HcSr04State.Triggered => { s with trigger := t }
  | HcSr04State.Measuring => { s with echo := t }
  | HcSr04State.Idle => s

/-- One iteration of the bounded wait loop in measure_us: break on timeout;
read the trigger cell; move Triggered to Measuring when the trigger cell is
set; when the echo pin reads high overwrite the trigger cell with the
current clock value and continue; otherwise break once trigger and echo are
both set in the Measuring state. -/
def loopBody (s : RangeLoopState) (o : LoopObs) : RangeLoopState × LoopOutcome :=
  if o.timedOut then
    (s, LoopOutcome.brk)
  else
    let trig := s.trigger
    let s1 := if 0 < trig ∧ s.st = HcSr04State.Triggered then
        { s with st := HcSr04State.Measuring }
      else s
    if o.pinHigh then
      ({ s1 with trigger := o.now }, LoopOutcome.cont)
    else if 0 < trig ∧ 0 < s1.echo ∧ s1.st = HcSr04State.Measuring then
      (s1, LoopOutcome.brk)
    else
      (s1, LoopOutcome.cont)

/-- One observed step: deliver the pending INT1 edge, then run the loop
body. -/
def rangeStep (s : RangeLoopState) (o : LoopObs) : RangeLoopState × LoopOutcome :=
  loopBody (match o.irq with | some t => int1 s t | none => s) o

/-- Run the wait loop over a list of observations, stopping at the first
break. -/
def runLoop : RangeLoopState → List LoopObs → RangeLoopState
  | s, [] => s
  | s, o :: rest =>
    match rangeStep s o with
    | (s1, LoopOutcome.brk) => s1
    | (s1, LoopOutcome.cont) => runLoop s1 rest

/-- The result classification at the end of measure_us, applied to the cell
values read after the loop: NoTrigger when the trigger cell is clear, then
NoEcho when the echo cell is clear, then InvalidResult unless the echo
timestamp is strictly after the trigger timestamp, otherwise the tick
difference computed by u32 subtraction. -/
def measureResult (trigger echo : ℕ) : Except HcSr04Error ℕ :=
  if trigger = 0 then Except.error HcSr04Error.NoTrigger
  else if echo = 0 then Except.error HcSr04Error.NoEcho
  else if echo ≤ trigger then Except.error HcSr04Error.InvalidResult
  else Except.ok ((echo + (U32 - trigger)) % U32)

/-! ## Infrared command codes (rangefinder/src/ir.rs) -/

namespace ir

/-- LEFT. -/
def LEFT : ℕ := 0x8

/-- RIGHT. -/
def RIGHT : ℕ := 0x5A

/-- UP. -/
def UP : ℕ := 0x52

/-- DOWN. -/
def DOWN : ℕ := 0x18

/-- OK. -/
def OK : ℕ := 0x1C

/-- STAR. -/
def STAR : ℕ := 0x16

end ir

/-! ## Turret dispatcher (rangefinder/src/turret.rs) -/

/-- PITCH_MOVE_SPEED (i16). -/
def PITCH_MOVE_SPEED : ℤ := 8

/-- YAW_MOVE_SPEED (i16). -/
def YAW_MOVE_SPEED : ℤ := 90

/-- YAW_STOP_SPEED (i16). -/
def YAW_STOP_SPEED : ℤ := 90

/-- ROLL_MOVE_SPEED (i16). -/
def ROLL_MOVE_SPEED : ℤ := 90

/-- ROLL_STOP_SPEED (i16). -/
def ROLL_STOP_SPEED : ℤ := 90

/-- YAW_PRECISION in milliseconds (u16). -/
def YAW_PRECISION : ℕ := 75

/-- ROLL_PRECISION in milliseconds (u16). -/
def ROLL_PRECISION : ℕ := 115

/-- PITCH_MAX (i16). -/
def PITCH_MAX : ℤ := 175

/-- PITCH_MIN (i16). -/
def PITCH_MIN : ℤ := 10

/-- The three actuators of the turret. -/
inductive Actuator where
  | yaw
  | pitch
  | roll
  deriving DecidableEq

/-- Observable effects of a dispatched command: a Servo::write of a degree
value (the u8 passed to write) on an actuator, or a delay_ms call. -/
inductive TurretEvent where
  | write (a : Actuator) (value : ℕ)
  | delayMs (ms : ℕ)
  deriving DecidableEq

/-- The persistent dispatcher state: the tracked pitch position (i16). -/
structure TurretState where
  pitchValue : ℤ
  deriving DecidableEq

/-- The state the builder installs: pitch_value = 100. -/
def turretInit : TurretState := { pitchValue := 100 }

/-- A decoded NEC command: address, command code and the repeat flag. -/
structure NecCmd where
  addr : ℕ
  cmd : ℕ
  rpt : Bool
  deriving DecidableEq

/-- Cast an i16 value to the u8 passed to Servo::write (low 8 bits of the
two's complement representation). -/
def u8cast (v : ℤ) : ℕ :=
  (v % (256 : ℤ)).toNat

/-- Turret::move_up: for each of the given moves, when pitch_value exceeds
PITCH_MIN decrement it by PITCH_MOVE_SPEED, write it to the pitch actuator
and delay 50 ms. -/
def moveUp : TurretState → ℕ → TurretState × List TurretEvent
  | s, 0 => (s, [])
  | s, Nat.succ n =>
    if PITCH_MIN < s.pitchValue then
      let s1 : TurretState := { pitchValue := s.pitchValue - PITCH_MOVE_SPEED }
      let rest := moveUp s1 n
      (rest.1,
        TurretEvent.write Actuator.pitch (u8cast s1.pitchValue)
          :: TurretEvent.delayMs 50 :: rest.2)
    else
      moveUp s n

/-- Turret::move_down: symmetric to move_up, guarded by PITCH_MAX. -/
def moveDown : TurretState → ℕ → TurretState × List TurretEvent
  | s, 0 => (s, [])
  | s, Nat.succ n =>
    if s.pitchValue < PITCH_MAX then
      let s1 : TurretState := { pitchValue := s.pitchValue + PITCH_MOVE_SPEED }
      let rest := moveDown s1 n
      (rest.1,
        TurretEvent.write Actuator.pitch (u8cast s1.pitchValue)
          :: TurretEvent.delayMs 50 :: rest.2)
    else
      moveDown s n

/-- Turret::move_left: per move, write the spin value to the yaw actuator,
delay YAW_PRECISION, write the stop value to the yaw actuator, delay 5 ms. -/
def moveLeft : TurretState → ℕ → TurretState × List TurretEvent
  | s, 0 => (s, [])
  | s, Nat.succ n =>
    let rest := moveLeft s n
    (rest.1,
      TurretEvent.write Actuator.yaw (u8cast (YAW_STOP_SPEED + YAW_MOVE_SPEED))
        :: TurretEvent.delayMs YAW_PRECISION
        :: TurretEvent.write Actuator.yaw (u8cast YAW_STOP_SPEED)
        :: TurretEvent.delayMs 5 :: rest.2)

/-- Turret::move_right as written in the source: per move, write the spin
value YAW_STOP_SPEED - YAW_MOVE_SPEED to the roll actuator, delay
YAW_PRECISION, write the stop value to the roll actuator, delay 5 ms. -/
def moveRight : TurretState → ℕ → TurretState × List TurretEvent
  | s, 0 => (s, [])
  | s, Nat.succ n =>
    let rest := moveRight s n
    (rest.1,
      TurretEvent.write Actuator.roll (u8cast (YAW_STOP_SPEED - YAW_MOVE_SPEED))
        :: TurretEvent.delayMs YAW_PRECISION
        :: TurretEvent.write Actuator.roll (u8cast YAW_STOP_SPEED)
        :: TurretEvent.delayMs 5 :: rest.2)

/-- Turret::fire: pulse the roll actuator off-center for ROLL_PRECISION ms
then back to the stop value. -/
def fire (s : TurretState) : TurretState × List TurretEvent :=
  (s,
    [TurretEvent.write Actuator.roll (u8cast (ROLL_STOP_SPEED - ROLL_MOVE_SPEED)),
     TurretEvent.delayMs ROLL_PRECISION,
     TurretEvent.write Actuator.roll (u8cast ROLL_STOP_SPEED),
     TurretEvent.delayMs 5])

/-- Turret::fire_all: like fire, held six times as long. -/
def fireAll (s : TurretState) : TurretState × List TurretEvent :=
  (s,
    [TurretEvent.write Actuator.roll (u8cast (ROLL_STOP_SPEED - ROLL_MOVE_SPEED)),
     TurretEvent.delayMs (ROLL_PRECISION * 6),
     TurretEvent.write Actuator.roll (u8cast ROLL_STOP_SPEED),
     TurretEvent.delayMs 5])

/-- Turret::handle_command: dispatch a fetched command by its code; OK and
STAR are ignored on a repeat event; unknown codes have no effect. -/
def handleCommand (s : TurretState) (m : Option NecCmd) : TurretState × List TurretEvent :=
  match m with
  | none => (s, [])
  | some c =>
    if c.cmd = ir.UP then moveUp s 1
    else if c.cmd = ir.DOWN then moveDown s 1
    else if c.cmd = ir.LEFT then moveLeft s 1
    else if c.cmd = ir.RIGHT then moveRight s 1
    else if c.cmd = ir.OK then (if c.rpt = false then fire s else (s, []))
    else if c.cmd = ir.STAR then (if c.rpt = false then fireAll s else (s, []))
    else (s, [])

/-- Dispatch a sequence of decoded commands. -/
def runCommands : TurretState → List NecCmd → TurretState
  | s, [] => s
  | s, c :: rest => runCommands (handleCommand s (some c)).1 rest

/-- Whether a trace contains a write to the given actuator. -/
def writesActuator (tr : List TurretEvent) (a : Actuator) : Bool :=
  tr.any (fun e =>
    match e with
    | TurretEvent.write b _ => b = a
    | TurretEvent.delayMs _ => false)

/-- Decidable equality of results, used to evaluate the embedded operations
on concrete inputs. -/
instance {ε α : Type} [DecidableEq ε] [DecidableEq α] : DecidableEq (Except ε α) := fun x y =>
  match x, y with
  | Except.ok a, Except.ok b =>
    if h : a = b then isTrue (by rw [h]) else isFalse (fun hh => h (by injection hh))
  | Except.error a, Except.error b =>
    if h : a = b then isTrue (by rw [h]) else isFalse (fun hh => h (by injection hh))
  | Except.ok _, Except.error _ => isFalse (fun hh => Except.noConfusion hh)
  | Except.error _, Except.ok _ => isFalse (fun hh => Except.noConfusion hh)

/-! ## Concrete states used by the evaluation theorems -/

/-- A multiplexer state in the middle of a frame: one registered attached
servo, channel 0, hardware counter far below the refresh boundary. -/
def c1FarState : ServoState :=
  { tc1Donated := true,
    servos := [{ pin := 5, ticks := 3000, attached := true }],
    timerEnabled := true, channel := 0, tcnt := 3000, ocr := 0 }

/-- The same state with the hardware counter within 4 ticks of the refresh
boundary (us_to_ticks 20000 = 40000). -/
def c1NearState : ServoState :=
  { c1FarState with tcnt := 39998 }

/-- Two registered servos, both attached, compare interrupt enabled. -/
def c4TwoAttached : ServoState :=
  { tc1Donated := true,
    servos := [{ pin := 2, ticks := 1500, attached := true },
               { pin := 3, ticks := 1500, attached := true }],
    timerEnabled := true, channel := 0, tcnt := 0, ocr := 0 }

/-- A single registered servo, attached, compare interrupt enabled. -/
def c4OneAttached : ServoState :=
  { tc1Donated := true,
    servos := [{ pin := 2, ticks := 1500, attached := true }],
    timerEnabled := true, channel := 0, tcnt := 0, ocr := 0 }

/-! ## Helper lemmas -/

set_option maxRecDepth 10000

theorem updateSlot_length (l : List ServoSlot) (i : ℕ) (f : ServoSlot → ServoSlot) :
    (updateSlot l i f).length = l.length := by
  induction l generalizing i with
  | nil => rfl
  | cons x xs ih =>
    cases i with
    | zero => simp [updateSlot]
    | succ n => simp [updateSlot, ih]

theorem updateSlot_get_eq (l : List ServoSlot) (i : ℕ) (f : ServoSlot → ServoSlot) :
    (updateSlot l i f)[i]? = (l[i]?).map f := by
  induction l generalizing i with
  | nil => simp [updateSlot]
  | cons x xs ih =>
    cases i with
    | zero => simp [updateSlot]
    | succ n => simp [updateSlot, ih]

theorem updateSlot_get_ne (l : List ServoSlot) (i j : ℕ) (f : ServoSlot → ServoSlot)
    (h : j ≠ i) : (updateSlot l i f)[j]? = l[j]? := by
  induction l generalizing i j with
  | nil => simp [updateSlot]
  | cons x xs ih =>
    cases i with
    | zero =>
      cases j with
      | zero => exact absurd rfl h
      | succ m => simp [updateSlot]
    | succ n =>
      cases j with
      | zero => simp [updateSlot]
      | succ m =>
        simp only [updateSlot, List.getElem?_cons_succ]
        exact ih n m (fun hh => h (by rw [hh]))

theorem moveLeft_fst (s : TurretState) (n : ℕ) : (moveLeft s n).1 = s := by
  induction n with
  | zero => rfl
  | succ n ih => simp [moveLeft, ih]

theorem moveRight_fst (s : TurretState) (n : ℕ) : (moveRight s n).1 = s := by
  induction n with
  | zero => rfl
  | succ n ih => simp [moveRight, ih]

theorem moveUp_pitch_bounds (n : ℕ) (s : TurretState)
    (h1 : PITCH_MIN - PITCH_MOVE_SPEED < s.pitchValue)
    (h2 : s.pitchValue < PITCH_MAX + PITCH_MOVE_SPEED) :
    PITCH_MIN - PITCH_MOVE_SPEED < (moveUp s n).1.pitchValue ∧
      (moveUp s n).1.pitchValue < PITCH_MAX + PITCH_MOVE_SPEED := by
  induction n generalizing s with
  | zero => exact ⟨h1, h2⟩
  | succ n ih =>
    by_cases hc : PITCH_MIN < s.pitchValue
    · simp only [moveUp, if_pos hc]
      refine ih { pitchValue := s.pitchValue - PITCH_MOVE_SPEED } ?_ ?_
      · show PITCH_MIN - PITCH_MOVE_SPEED < s.pitchValue - PITCH_MOVE_SPEED
        unfold PITCH_MIN PITCH_MOVE_SPEED at *
        omega
      · show s.pitchValue - PITCH_MOVE_SPEED < PITCH_MAX + PITCH_MOVE_SPEED
        unfold PITCH_MIN PITCH_MAX PITCH_MOVE_SPEED at *
        omega
    · simp only [moveUp, if_neg hc]
      exact ih s h1 h2

theorem moveDown_pitch_bounds (n : ℕ) (s : TurretState)
    (h1 : PITCH_MIN - PITCH_MOVE_SPEED < s.pitchValue)
    (h2 : s.pitchValue < PITCH_MAX + PITCH_MOVE_SPEED) :
    PITCH_MIN - PITCH_MOVE_SPEED < (moveDown s n).1.pitchValue ∧
      (moveDown s n).1.pitchValue < PITCH_MAX + PITCH_MOVE_SPEED := by
  induction n generalizing s with
  | zero => exact ⟨h1, h2⟩
  | succ n ih =>
    by_cases hc : s.pitchValue < PITCH_MAX
    · simp only [moveDown, if_pos hc]
      refine ih { pitchValue := s.pitchValue + PITCH_MOVE_SPEED } ?_ ?_
      · show PITCH_MIN - PITCH_MOVE_SPEED < s.pitchValue + PITCH_MOVE_SPEED
        unfold PITCH_MIN PITCH_MOVE_SPEED at *
        omega
      · show s.pitchValue + PITCH_MOVE_SPEED < PITCH_MAX + PITCH_MOVE_SPEED
        unfold PITCH_MAX PITCH_MOVE_SPEED at *
        omega
    · simp only [moveDown, if_neg hc]
      exact ih s h1 h2

theorem handleCommand_pitch_bounds (s : TurretState) (c : NecCmd)
    (h1 : PITCH_MIN - PITCH_MOVE_SPEED < s.pitchValue)
    (h2 : s.pitchValue < PITCH_MAX + PITCH_MOVE_SPEED) :
    PITCH_MIN - PITCH_MOVE_SPEED < (handleCommand s (some c)).1.pitchValue ∧
      (handleCommand s (some c)).1.pitchValue < PITCH_MAX + PITCH_MOVE_SPEED := by
  simp only [handleCommand]
  split_ifs
  · exact moveUp_pitch_bounds 1 s h1 h2
  · exact moveDown_pitch_bounds 1 s h1 h2
  · rw [moveLeft_fst]
    exact ⟨h1, h2⟩
  · rw [moveRight_fst]
    exact ⟨h1, h2⟩
  · exact ⟨h1, h2⟩
  · exact ⟨h1, h2⟩
  · exact ⟨h1, h2⟩
  · exact ⟨h1, h2⟩
  · exact ⟨h1, h2⟩

theorem runCommands_pitch_bounds (cmds : List NecCmd) (s : TurretState)
    (h1 : PITCH_MIN - PITCH_MOVE_SPEED < s.pitchValue)
    (h2 : s.pitchValue < PITCH_MAX + PITCH_MOVE_SPEED) :
    PITCH_MIN - PITCH_MOVE_SPEED < (runCommands s cmds).pitchValue ∧
      (runCommands s cmds).pitchValue < PITCH_MAX + PITCH_MOVE_SPEED := by
  induction cmds generalizing s with
  | nil => exact ⟨h1, h2⟩
  | cons c rest ih =>
    have hb := handleCommand_pitch_bounds s c h1 h2
    exact ih (handleCommand s (some c)).1 hb.1 hb.2

/-! ## Claim theorems -/

/-- C1: evaluation of the TIMER1_COMPA handler on the branch where no slot
exists at the advanced channel index. The refresh boundary is
us_to_ticks 20000 = 40000 ticks. With the hardware counter far below the
boundary (tcnt = 3000) the handler schedules tcnt + 4 = 3004, and with the
counter within the 4-tick guard margin (tcnt = 39998) it schedules the
boundary value 40000; in both cases the channel is set to -1. The schedule
is therefore the reverse of the one the claim describes, because the
comparison in the source inverts the condition quoted in its own comment. -/
theorem timer1_compa_refresh_schedule :
    us_to_ticks REFRESH_INTERVAL = 40000 ∧
    (TIMER1_COMPA c1FarState).1.ocr = 3004 ∧
    (TIMER1_COMPA c1FarState).1.channel = -1 ∧
    (TIMER1_COMPA c1FarState).2 = [(5, false)] ∧
    (TIMER1_COMPA c1NearState).1.ocr = 40000 ∧
    (TIMER1_COMPA c1NearState).1.channel = -1 := by
  decide

/-- C2: evaluation of Clock::tick across the fold of the sub-counter. After
251 ticks from a fresh clock the sub-counter holds 251 and now() = 251; the
252nd tick folds part into the counter, after which now() is still 251, so
that call does not increase now() by one. -/
theorem clock_fold_tick_keeps_now_flat :
    (Nat.iterate clockTick 251 clockInit).part = 251 ∧
    clockNow (Nat.iterate clockTick 251 clockInit) = 251 ∧
    clockNow (Nat.iterate clockTick 252 clockInit) = 251 := by
  decide

/-- C3: the result classification of measure_us. With both cell values in
u32 range, a zero trigger cell yields NoTrigger; otherwise a zero echo cell
yields NoEcho; otherwise an echo not strictly after the trigger yields
InvalidResult; otherwise the result is exactly echo - trigger, which is
positive and below 2^32, so the u32 subtraction never wraps. -/
theorem measure_us_result_classification (t e : ℕ) (ht : t < U32) (he : e < U32) :
    (t = 0 → measureResult t e = Except.error HcSr04Error.NoTrigger) ∧
    (t ≠ 0 → e = 0 → measureResult t e = Except.error HcSr04Error.NoEcho) ∧
    (t ≠ 0 → e ≠ 0 → e ≤ t → measureResult t e = Except.error HcSr04Error.InvalidResult) ∧
    (t ≠ 0 → e ≠ 0 → t < e →
      measureResult t e = Except.ok (e - t) ∧ 0 < e - t ∧ e - t < U32) := by
  unfold measureResult
  unfold U32 at ht he ⊢
  refine ⟨fun h0 => by rw [if_pos h0], ?_, ?_, ?_⟩
  · intro h0 he0
    rw [if_neg h0, if_pos he0]
  · intro h0 he0 hle
    rw [if_neg h0, if_neg he0, if_pos hle]
  · intro h0 he0 hlt
    rw [if_neg h0, if_neg he0, if_neg (by omega : ¬ e ≤ t)]
    refine ⟨?_, by omega, by omega⟩
    congr 1
    omega

/-- C3 witness: the classification evaluated at trigger = 100 with echo 130
and echo 90. -/
theorem measure_us_result_classification_witness :
    measureResult 100 130 = Except.ok 30 ∧
    measureResult 100 90 = Except.error HcSr04Error.InvalidResult := by
  constructor
  · exact ((measure_us_result_classification 100 130 (by decide) (by decide)).2.2.2
      (by decide) (by decide) (by decide)).1
  · exact (measure_us_result_classification 100 90 (by decide) (by decide)).2.2.1
      (by decide) (by decide) (by decide)

/-- C4: evaluation of Servo::detach. Detaching slot 0 clears its attached
flag. With a second slot still attached the compare interrupt ends up
disabled, and with no slot left attached it stays enabled: the opposite of
the claimed behaviour, because the source runs disable_timer when
is_timer_active() is true rather than false. -/
theorem detach_timer_disable_behavior :
    (servoDetach c4TwoAttached 0).servos[0]? =
      some { pin := 2, ticks := 1500, attached := false } ∧
    isTimerActive (servoDetach c4TwoAttached 0) = true ∧
    (servoDetach c4TwoAttached 0).timerEnabled = false ∧
    isTimerActive (servoDetach c4OneAttached 0) = false ∧
    (servoDetach c4OneAttached 0).timerEnabled = true := by
  decide

/-- C5: evaluation of the dispatcher on the LEFT and RIGHT commands. LEFT
produces the spin and stop writes on the yaw actuator, but RIGHT produces
its spin and stop writes on the roll actuator and never writes yaw. -/
theorem right_command_drives_roll_actuator :
    (handleCommand turretInit (some { addr := 0, cmd := ir.RIGHT, rpt := false })).2 =
      [TurretEvent.write Actuator.roll 0, TurretEvent.delayMs YAW_PRECISION,
       TurretEvent.write Actuator.roll 90, TurretEvent.delayMs 5] ∧
    writesActuator
      (handleCommand turretInit (some { addr := 0, cmd := ir.RIGHT, rpt := false })).2
      Actuator.yaw = false ∧
    (handleCommand turretInit (some { addr := 0, cmd := ir.LEFT, rpt := false })).2 =
      [TurretEvent.write Actuator.yaw 180, TurretEvent.delayMs YAW_PRECISION,
       TurretEvent.write Actuator.yaw 90, TurretEvent.delayMs 5] ∧
    writesActuator
      (handleCommand turretInit (some { addr := 0, cmd := ir.LEFT, rpt := false })).2
      Actuator.pitch = false ∧
    writesActuator
      (handleCommand turretInit (some { addr := 0, cmd := ir.LEFT, rpt := false })).2
      Actuator.roll = false := by
  decide

/-- C6 counterexample: twelve UP commands from the initial pitch of 100
drive the pitch position to 4, strictly below PITCH_MIN = 10, so the pitch
does not remain within [PITCH_MIN, PITCH_MAX]. -/
theorem pitch_exceeds_min_counterexample :
    (runCommands turretInit
      (List.replicate 12 { addr := 0, cmd := ir.UP, rpt := false })).pitchValue = 4 ∧
    (runCommands turretInit
      (List.replicate 12 { addr := 0, cmd := ir.UP, rpt := false })).pitchValue <
      PITCH_MIN := by
  decide

/-- C6 (amended): under every sequence of dispatched commands the pitch
position stays strictly between PITCH_MIN - PITCH_MOVE_SPEED and
PITCH_MAX + PITCH_MOVE_SPEED, because each mutation is guarded by a strict
comparison against the bound before stepping by PITCH_MOVE_SPEED rather
than clamped after. -/
theorem pitch_stays_within_one_step_of_limits (cmds : List NecCmd) :
    PITCH_MIN - PITCH_MOVE_SPEED < (runCommands turretInit cmds).pitchValue ∧
    (runCommands turretInit cmds).pitchValue < PITCH_MAX + PITCH_MOVE_SPEED :=
  runCommands_pitch_bounds cmds turretInit (by decide) (by decide)

/-- C7: one Clock::tick either leaves now() unchanged or advances it by one
modulo 2^32, and whenever the sub-counter is at or below the fold threshold
the advance is exactly one modulo 2^32. -/
theorem clock_now_step_behavior (s : ClockState) :
    (clockNow (clockTick s) = clockNow s ∨
      clockNow (clockTick s) = (clockNow s + 1) % U32) ∧
    (s.part ≤ 250 → clockNow (clockTick s) = (clockNow s + 1) % U32) := by
  unfold clockNow clockTick U32 U8
  by_cases h : s.part > 250
  · rw [if_pos h]
    refine ⟨Or.inl ?_, fun hle => absurd h (by omega)⟩
    show ((s.counter + s.part) % 4294967296 + 0) % 4294967296 =
      (s.counter + s.part) % 4294967296
    omega
  · rw [if_neg h]
    have key : (s.counter + (s.part + 1) % 256) % 4294967296 =
        ((s.counter + s.part) % 4294967296 + 1) % 4294967296 := by
      rw [Nat.mod_eq_of_lt (by omega : s.part + 1 < 256)]
      omega
    exact ⟨Or.inr key, fun _ => key⟩

/-- C7 witness: the exact step at the concrete state counter 0, part 5. -/
theorem clock_now_step_behavior_witness :
    clockNow (clockTick { counter := 0, part := 5 }) =
      (clockNow { counter := 0, part := 5 } + 1) % U32 :=
  (clock_now_step_behavior { counter := 0, part := 5 }).2 (by decide)

/-- C8: with TC1 donated, every prefix of up to MAX_SERVOS = 12
registrations succeeds, the full run yields the 12-slot state, a 13th
Servo::new (and any run extending it) returns TooManyServos, and a write on
any of the 12 slots changes exactly that slot, leaving every other slot as
it was. -/
theorem servo_registration_capacity :
    ((List.range (MAX_SERVOS + 1)).all
      (fun k => exceptOk (registerMany servoInit k))) = true ∧
    registerMany servoInit MAX_SERVOS = Except.ok servoFullState ∧
    servoFullState.servos.length = MAX_SERVOS ∧
    servoNew servoFullState 0 = Except.error ServoError.TooManyServos ∧
    (∀ n : ℕ, registerMany servoFullState (n + 1) =
      Except.error ServoError.TooManyServos) ∧
    (∀ i : ℕ, ∀ v : ℤ, i < MAX_SERVOS →
      (servoWriteUs servoFullState { index := i, min := 0, max := 0 } v).servos.length =
        MAX_SERVOS ∧
      (servoWriteUs servoFullState { index := i, min := 0, max := 0 } v).servos[i]? =
        (servoFullState.servos[i]?).map
          (fun sl => { sl with
            ticks := writtenTicks { index := i, min := 0, max := 0 } v }) ∧
      (∀ j : ℕ, j ≠ i →
        (servoWriteUs servoFullState { index := i, min := 0, max := 0 } v).servos[j]? =
          servoFullState.servos[j]?)) := by
  refine ⟨by decide, by decide, by decide, by decide, ?_, ?_⟩
  · intro n
    have h : servoNew servoFullState 0 = Except.error ServoError.TooManyServos := by decide
    simp [registerMany, h]
  · intro i v hi
    refine ⟨?_, ?_, ?_⟩
    · show (updateSlot servoFullState.servos i _).length = MAX_SERVOS
      rw [updateSlot_length]
      decide
    · exact updateSlot_get_eq servoFullState.servos i _
    · intro j hj
      exact updateSlot_get_ne servoFullState.servos i j _ hj

/-- C8 witness: a run extended past the full table fails, and a write on
slot 3 leaves slot 7 untouched. -/
theorem servo_registration_capacity_witness :
    registerMany servoFullState 1 = Except.error ServoError.TooManyServos ∧
    (servoWriteUs servoFullState { index := 3, min := 0, max := 0 } 1500).servos[7]? =
      servoFullState.servos[7]? :=
  ⟨servo_registration_capacity.2.2.2.2.1 0,
   (servo_registration_capacity.2.2.2.2.2 3 1500 (by decide)).2.2 7 (by decide)⟩

/-- C9: under the statically checked bound on the compare value, the u8
compare register value TOP equals (16,000,000 / (PRESCALE x FREQ)) - 1
exactly, with no truncation in the cast. -/
theorem clock_top_fits_exactly (khz prescale : ℕ) (h : clockAssertCond khz prescale) :
    clockTOP khz prescale = (16000000 / (prescale * clockFREQ khz)) - 1 := by
  unfold clockAssertCond at h
  unfold clockTOP clockFREQ U8
  rw [Nat.mod_eq_of_lt]
  rw [← Nat.mul_assoc]
  exact h

/-- C9 witness: the in-tree instantiation Clock 40 8 satisfies the bound
and gets the exact compare value. -/
theorem clock_top_fits_exactly_witness :
    clockTOP 40 8 = (16000000 / (8 * clockFREQ 40)) - 1 :=
  clock_top_fits_exactly 40 8 (by unfold clockAssertCond ; decide)

/-- C10: in the wait loop of measure_us, every iteration that does not time
out and reads the echo pin high overwrites the trigger-time cell with the
current clock value and continues, whatever the ranging state, the cell
contents and any pending edge interrupt; consequently, in a run where the
rising-edge interrupt stamped 100 but later iterations saw the pin high at
105 and 107 before the falling edge stamped 130, the loop exits with
trigger 107 and the measured duration is 23 ticks, not the 30 ticks from
the interrupt-captured rising edge. -/
theorem wait_loop_high_overwrites_trigger :
    (∀ (s : RangeLoopState) (o : LoopObs), o.timedOut = false → o.pinHigh = true →
      (rangeStep s o).1.trigger = o.now ∧ (rangeStep s o).2 = LoopOutcome.cont) ∧
    (runLoop { trigger := 0, echo := 0, st := HcSr04State.Triggered }
        [{ irq := some 100, timedOut := false, pinHigh := true, now := 105 },
         { irq := none, timedOut := false, pinHigh := true, now := 107 },
         { irq := some 130, timedOut := false, pinHigh := false, now := 109 }] =
      { trigger := 107, echo := 130, st := HcSr04State.Measuring } ∧
     measureResult 107 130 = Except.ok 23 ∧
     measureResult 100 130 = Except.ok 30 ∧ (23 : ℕ) < 30) := by
  constructor
  · intro s o hT hP
    obtain ⟨irq, tO, pH, n⟩ := o
    obtain ⟨tr, ec, st⟩ := s
    cases tO with
    | true => exact Bool.noConfusion hT
    | false =>
      cases pH with
      | false => exact Bool.noConfusion hP
      | true =>
        cases irq with
        | none => exact ⟨rfl, rfl⟩
        | some t => cases st <;> exact ⟨rfl, rfl⟩
  · decide

/-- C10 witness: an iteration with the pin high from the Idle state with no
pending interrupt still overwrites the trigger cell with the current clock
value. -/
theorem wait_loop_high_overwrites_trigger_witness :
    (rangeStep { trigger := 0, echo := 0, st := HcSr04State.Idle }
      { irq := none, timedOut := false, pinHigh := true, now := 42 }).1.trigger = 42 :=
  (wait_loop_high_overwrites_trigger.1
    { trigger := 0, echo := 0, st := HcSr04State.Idle }
    { irq := none, timedOut := false, pinHigh := true, now := 42 } rfl rfl).1
